import Mathlib

/-!
Verification of the seeding orchestrator in src/src/network/seeder.cpp
(libbitcoin network seeder).

Each handler of the C++ class `seeder` is embedded as a pure Lean function
that returns the ordered list of observable effects the handler performs:
log calls, invocations of the completion handler `handle_seeded` (the
barrier signal), store submissions to the host pool, and channel
operations.  `handle_synced` returns the error code it passes to the final
completion handler.  The fan-in primitive `async_parallel` lives outside
this repository (only its header is included by seeder.cpp), so it is
modelled from the specification.
-/

/-- Error codes relevant to the seeder, from bitcoin/error.hpp.  `success`
is the zero code; a `std::error_code` converts to `true` exactly when it is
nonzero.  `other n` stands for any further nonzero code. -/
inductive ErrorCode where
  | success
  | operation_failed
  | channel_stopped
  | other (n : Nat)
deriving DecidableEq

/-- Truthiness of a `std::error_code`: nonzero codes test true. -/
def ErrorCode.isError : ErrorCode → Bool
  | .success => false
  | _ => true

/-- One peer address from an address-list message (opaque payload). -/
abbrev Address := Nat

/-- Observable effects a seeder handler can perform, in program order. -/
inductive Effect where
  | logInfo
  | logDebug
  | logError
  | signal (ec : ErrorCode)
  | subscribeStop
  | subscribeAddress
  | startHandshake
  | startNode
  | sendGetAddress
  | store (address : Address)
  | stopNode (ec : ErrorCode)
deriving DecidableEq

/-- The error codes of the `handle_seeded` (barrier signal) calls among a
handler's effects, in order. -/
def signalsOf (effects : List Effect) : List ErrorCode :=
  effects.filterMap fun e =>
    match e with
    | Effect.signal ec => some ec
    | _ => none

/-- Bool test that every signalled code is `success`. -/
def allSuccess (codes : List ErrorCode) : Bool :=
  codes.all fun c => decide (c = ErrorCode.success)

/-- A seed endpoint: host and port (config::endpoint). -/
structure endpoint where
  host : String
  port : Nat
deriving DecidableEq

namespace seeder

/-- seeder::handle_stop (seeder.cpp lines 151-162): the subscribe_stop
observer.  If `ec` is nonzero it logs (unless `ec` is `channel_stopped`)
and always calls `handle_seeded(error::success)`; if `ec` is zero it does
nothing. -/
def handle_stop (ec : ErrorCode) : List Effect :=
  if ec.isError then
    (if ec ≠ ErrorCode.channel_stopped then [Effect.logDebug] else []) ++
      [Effect.signal ErrorCode.success]
  else []

/-- seeder::handle_handshake (seeder.cpp lines 164-183): on error it logs
and returns (no barrier signal); on success it subscribes to address
messages and sends get_address. -/
def handle_handshake (ec : ErrorCode) : List Effect :=
  if ec.isError then
    [Effect.logDebug]
  else
    [Effect.subscribeAddress, Effect.sendGetAddress]

/-- seeder::handle_send (seeder.cpp lines 185-195): on error it logs and
calls `handle_seeded(error::success)`; on success it does nothing. -/
def handle_send (ec : ErrorCode) : List Effect :=
  if ec.isError then
    [Effect.logDebug, Effect.signal ErrorCode.success]
  else []

/-- seeder::handle_connected (seeder.cpp lines 123-149): on error it logs
and calls `handle_seeded(error::success)`; on success it logs, subscribes
the stop observer, begins the handshake and starts the node. -/
def handle_connected (ec : ErrorCode) : List Effect :=
  if ec.isError then
    [Effect.logInfo, Effect.signal ErrorCode.success]
  else
    [Effect.logInfo, Effect.subscribeStop, Effect.startHandshake,
      Effect.startNode]

/-- seeder::handle_receive (seeder.cpp lines 201-229): on error it logs and
calls `handle_seeded(error::success)`; on success it logs, submits one
asynchronous store per address of the message, calls
`handle_seeded(error::success)`, then stops the node with
`error::channel_stopped`. -/
def handle_receive (ec : ErrorCode) (addresses : List Address) : List Effect :=
  if ec.isError then
    [Effect.logDebug, Effect.signal ErrorCode.success]
  else
    [Effect.logInfo] ++ addresses.map Effect.store ++
      [Effect.signal ErrorCode.success, Effect.stopNode ErrorCode.channel_stopped]

/-- seeder::handle_store (seeder.cpp lines 232-237): called once per stored
address; logs on error, otherwise does nothing.  It never touches the
barrier. -/
def handle_store (ec : ErrorCode) : List Effect :=
  if ec.isError then [Effect.logError] else []

/-- seeder::handle_synced (seeder.cpp lines 98-111): the barrier's final
callback.  A nonzero barrier error is passed through to `handle_seeded`
unchanged; otherwise success is reported exactly when the host pool grew
past the count recorded at start, else `error::operation_failed`. -/
def handle_synced (ec : ErrorCode) (host_start_count current_host_count : Nat) :
    ErrorCode :=
  if ec.isError then ec
  else if host_start_count < current_host_count then ErrorCode.success
  else ErrorCode.operation_failed

end seeder

/-- State of the fan-in barrier: arrivals so far and the first nonzero
error observed (or `success` if none yet). -/
structure BarrierState where
  arrived : Nat
  firstError : ErrorCode
deriving DecidableEq

/-- Modelled from the spec: `async_parallel` (utility/async_parallel.hpp,
whose implementation is not under src/).  One `signal(ec)` delivery: after
the counter has reached `required` further signals are no-ops; otherwise
the arrival is counted, the first nonzero error is retained, and the
arrival that brings the counter to `required` fires the final callback
once with that retained error.  Returns the new state and the list of
final-callback invocations this delivery causes. -/
def barrierStep (required : Nat) (s : BarrierState) (ec : ErrorCode) :
    BarrierState × List ErrorCode :=
  if required ≤ s.arrived then (s, [])
  else
    let fe := if s.firstError = ErrorCode.success then ec else s.firstError
    (⟨s.arrived + 1, fe⟩, if s.arrived + 1 = required then [fe] else [])

/-- Modelled from the spec: sequential delivery of a list of signals to the
`async_parallel` barrier, collecting every final-callback invocation. -/
def barrierProcess (required : Nat) (s : BarrierState) :
    List ErrorCode → List ErrorCode
  | [] => []
  | ec :: rest =>
    (barrierStep required s ec).2 ++
      barrierProcess required (barrierStep required s ec).1 rest

/-- Modelled from the spec: a whole run of the `async_parallel` barrier
constructed with `required`, then receiving `signals` in order.  Per spec
section 4.1, a barrier constructed with `required = 0` fires its callback
immediately upon construction, with `success`. -/
def barrierRun (required : Nat) (signals : List ErrorCode) : List ErrorCode :=
  (if required = 0 then [ErrorCode.success] else []) ++
    barrierProcess required ⟨0, ErrorCode.success⟩ signals

/-- First nonzero code of a list, or `success` when none. -/
def firstFailure : List ErrorCode → ErrorCode
  | [] => ErrorCode.success
  | ec :: rest => if ec = ErrorCode.success then firstFailure rest else ec

namespace seeder

/-- Synchronous outcome of seeder::start: the codes passed to
`handle_seeded` during the call itself, the `required` count the
`async_parallel` barrier is constructed with, and the seeds for which a
connect is launched. -/
structure StartResult where
  handlerCalls : List ErrorCode
  barrierRequired : Nat
  connects : List endpoint
deriving DecidableEq

/-- seeder::start (seeder.cpp lines 74-96).  It first asserts a non-null
completion handler (BITCOIN_ASSERT_MSG, line 76); a null handler is the
assertion-failure branch, modelled as `none`.  With an empty seed list it
logs and calls `handle_seeded(error::success)` but does not return; it
then unconditionally records the host count, constructs
`async_parallel(handle_synced, seed_count)` — whose immediate fire at
`seed_count = 0` is the spec-modelled `barrierRun` with no signals — and
launches one connect per seed. -/
def start (handlerNonNull : Bool) (seeds : List endpoint) (hostPoolSize : Nat) :
    Option StartResult :=
  if handlerNonNull = false then none
  else
    let emptyBranch := if seeds.isEmpty then [ErrorCode.success] else []
    let seed_count := seeds.length
    let host_count := hostPoolSize
    some
      ⟨emptyBranch ++
          (barrierRun seed_count []).map
            (fun ec => handle_synced ec host_count hostPoolSize),
        seed_count, seeds⟩

end seeder

/-- C1: the claim says one call to seeder::start invokes the completion
handler exactly once for every N ≥ 0.  The code violates it at N = 0: the
empty-list branch calls the handler with success and does not return, and
the zero-required barrier then fires immediately through handle_synced,
invoking the handler a second time with operation_failed. -/
theorem C1_empty_seeds_double_completion :
    seeder.start true [] 5 =
      some ⟨[ErrorCode.success, ErrorCode.operation_failed], 0, []⟩ := rfl

/-- C2: the claim says a handshake that completes with a nonzero error
still reports one signal(success) to the barrier.  In the code,
handle_handshake's error branch only logs and returns: it emits no barrier
signal at all. -/
theorem C2_handshake_error_drops_signal :
    seeder.handle_handshake (ErrorCode.other 1) = [Effect.logDebug] ∧
    signalsOf (seeder.handle_handshake (ErrorCode.other 1)) = [] :=
  ⟨rfl, rfl⟩

/-- C3: the claim says the empty-list short-circuit is an early return and
no zero-sized barrier is constructed or started.  In the code, start falls
through after handle_seeded(error::success): it still constructs
async_parallel with seed_count = 0, whose immediate fire delivers a second
handler call. -/
theorem C3_empty_seeds_no_early_return :
    (seeder.start true [] 0).map seeder.StartResult.barrierRequired = some 0 ∧
    (seeder.start true [] 0).map
        (fun r => r.handlerCalls.length) = some 2 :=
  ⟨rfl, rfl⟩

/-- C4: the claim says the stop observer reports no additional signal when
it fires with the attempt's own expected stop code (channel_stopped).  In
the code, handle_stop calls handle_seeded(error::success) for every
nonzero code — channel_stopped only skips the log — so an attempt that
already signalled in handle_receive signals a second time when its own
node->stop(error::channel_stopped) completes. -/
theorem C4_stop_code_still_signals :
    seeder.handle_stop ErrorCode.channel_stopped =
      [Effect.signal ErrorCode.success] ∧
    signalsOf (seeder.handle_receive ErrorCode.success [1] ++
        seeder.handle_stop ErrorCode.channel_stopped) =
      [ErrorCode.success, ErrorCode.success] :=
  ⟨rfl, rfl⟩

/-- C5: handle_synced passes a nonzero barrier error through unchanged,
and on a zero barrier error reports success exactly when the host pool
size at completion strictly exceeds the recorded start count, else
operation_failed. -/
theorem C5_handle_synced (ec : ErrorCode) (host_start_count current : Nat) :
    (ec ≠ ErrorCode.success →
      seeder.handle_synced ec host_start_count current = ec) ∧
    seeder.handle_synced ErrorCode.success host_start_count current =
      (if host_start_count < current then ErrorCode.success
       else ErrorCode.operation_failed) := by
  constructor
  · intro h
    cases ec with
    | success => exact absurd rfl h
    | operation_failed => rfl
    | channel_stopped => rfl
    | other n => rfl
  · rfl

/-- C5 witness: the theorem applied at a nonzero barrier error and at a
grown host pool. -/
theorem C5_handle_synced_witness :
    seeder.handle_synced (ErrorCode.other 7) 3 9 = ErrorCode.other 7 ∧
    seeder.handle_synced ErrorCode.success 3 9 =
      (if 3 < 9 then ErrorCode.success else ErrorCode.operation_failed) :=
  ⟨(C5_handle_synced (ErrorCode.other 7) 3 9).1 (by decide),
    (C5_handle_synced (ErrorCode.other 7) 3 9).2⟩

/-- C6: handle_receive signals success to the barrier on both the error
branch and the success branch; on success it submits one store per address
of the message before signalling and requests node stop after signalling;
handle_store never emits a barrier signal, and a failed store only logs. -/
theorem C6_handle_receive (ec : ErrorCode) (addresses : List Address) :
    (ec ≠ ErrorCode.success →
      seeder.handle_receive ec addresses =
        [Effect.logDebug, Effect.signal ErrorCode.success]) ∧
    seeder.handle_receive ErrorCode.success addresses =
      [Effect.logInfo] ++ addresses.map Effect.store ++
        [Effect.signal ErrorCode.success,
          Effect.stopNode ErrorCode.channel_stopped] ∧
    (∀ e, signalsOf (seeder.handle_store e) = []) ∧
    (∀ e, e ≠ ErrorCode.success →
      seeder.handle_store e = [Effect.logError]) := by
  refine ⟨?_, rfl, ?_, ?_⟩
  · intro h
    cases ec with
    | success => exact absurd rfl h
    | operation_failed => rfl
    | channel_stopped => rfl
    | other n => rfl
  · intro e
    cases e <;> rfl
  · intro e h
    cases e with
    | success => exact absurd rfl h
    | operation_failed => rfl
    | channel_stopped => rfl
    | other n => rfl

/-- C6 witness: the theorem applied at a receive error, at a successful
receive of two addresses, and at a failed store. -/
theorem C6_handle_receive_witness :
    seeder.handle_receive (ErrorCode.other 2) [10, 11] =
      [Effect.logDebug, Effect.signal ErrorCode.success] ∧
    seeder.handle_receive ErrorCode.success [10, 11] =
      [Effect.logInfo] ++ [10, 11].map Effect.store ++
        [Effect.signal ErrorCode.success,
          Effect.stopNode ErrorCode.channel_stopped] ∧
    signalsOf (seeder.handle_store (ErrorCode.other 3)) = [] ∧
    seeder.handle_store (ErrorCode.other 3) = [Effect.logError] :=
  ⟨(C6_handle_receive (ErrorCode.other 2) [10, 11]).1 (by decide),
    (C6_handle_receive (ErrorCode.other 2) [10, 11]).2.1,
    (C6_handle_receive (ErrorCode.other 2) [10, 11]).2.2.1 (ErrorCode.other 3),
    (C6_handle_receive (ErrorCode.other 2) [10, 11]).2.2.2 (ErrorCode.other 3)
      (by decide)⟩

/-- C9: start asserts a non-null completion handler on entry.  With a
non-null handler the assertion-failure branch (`none`) is unreachable and
start proceeds; a null handler takes the assertion-failure branch. -/
theorem C9_null_handler_assertion (seeds : List endpoint) (n : Nat) :
    (seeder.start true seeds n).isSome = true ∧
    seeder.start false seeds n = none := by
  constructor
  · simp [seeder.start]
  · rfl

/-- C10: the stop observer does nothing at all — no log, no barrier
signal — when the channel ends with the zero (success) code. -/
theorem C10_handle_stop_clean : seeder.handle_stop ErrorCode.success = [] := rfl

/-- Helper: a list of store effects contains no barrier signal. -/
theorem signalsOf_store_map (addresses : List Address) :
    signalsOf (addresses.map Effect.store) = [] := by
  induction addresses with
  | nil => rfl
  | cons a rest ih => simp [signalsOf, List.filterMap_cons, ih]

/-- Helper: signalsOf distributes over append. -/
theorem signalsOf_append (xs ys : List Effect) :
    signalsOf (xs ++ ys) = signalsOf xs ++ signalsOf ys := by
  simp [signalsOf, List.filterMap_append]

/-- C7: every barrier signal emitted by a per-seed terminal branch —
connector error, send error, session-ended error, receive error or
successful receive — carries the success code; no per-seed error code is
ever passed to the barrier. -/
theorem C7_signals_carry_success (ec : ErrorCode) (addresses : List Address) :
    allSuccess (signalsOf (seeder.handle_connected ec)) = true ∧
    allSuccess (signalsOf (seeder.handle_send ec)) = true ∧
    allSuccess (signalsOf (seeder.handle_stop ec)) = true ∧
    allSuccess (signalsOf (seeder.handle_receive ec addresses)) = true := by
  refine ⟨?_, ?_, ?_, ?_⟩
  · cases ec <;> rfl
  · cases ec <;> rfl
  · cases ec <;> rfl
  · cases ec with
    | success =>
      simp [seeder.handle_receive, ErrorCode.isError, signalsOf_append,
        signalsOf_store_map, allSuccess, signalsOf]
    | operation_failed => rfl
    | channel_stopped => rfl
    | other n => rfl

/-- Helper: once the barrier counter has reached the required count, every
further signal is a no-op and the final callback is never invoked again. -/
theorem barrierProcess_done (required : Nat) (s : BarrierState)
    (signals : List ErrorCode) (h : required ≤ s.arrived) :
    barrierProcess required s signals = [] := by
  induction signals with
  | nil => rfl
  | cons ec rest ih =>
    simp only [barrierProcess, barrierStep, if_pos h]
    simp [ih]

/-- Helper: firstFailure of a one-element list is that element. -/
theorem firstFailure_singleton (ec : ErrorCode) : firstFailure [ec] = ec := by
  by_cases h : ec = ErrorCode.success
  · subst h; rfl
  · simp [firstFailure, h]

/-- Helper: from a state with fewer arrivals than required and enough
pending signals, the barrier fires exactly once, with the retained first
error if any, else the first nonzero code among the counted signals. -/
theorem barrierProcess_fires (required : Nat) :
    ∀ (signals : List ErrorCode) (a : Nat) (fe : ErrorCode),
      a < required → required - a ≤ signals.length →
      barrierProcess required ⟨a, fe⟩ signals =
        [if fe = ErrorCode.success then
            firstFailure (signals.take (required - a)) else fe] := by
  intro signals
  induction signals with
  | nil =>
    intro a fe ha hlen
    simp at hlen
    omega
  | cons ec rest ih =>
    intro a fe ha hlen
    have hnotdone : ¬ required ≤ a := Nat.not_le.mpr ha
    by_cases hfire : a + 1 = required
    · have hdone : required ≤ a + 1 := Nat.le_of_eq hfire.symm
      have htake : required - a = 1 := by omega
      simp only [barrierProcess, barrierStep, if_neg hnotdone, if_pos hfire,
        htake, List.take_succ_cons, List.take_zero]
      rw [barrierProcess_done required _ rest hdone]
      by_cases hfe : fe = ErrorCode.success
      · simp [hfe, firstFailure_singleton]
      · simp [hfe]
    · have hlt : a + 1 < required := by omega
      have hlen2 : required - (a + 1) ≤ rest.length := by
        simp at hlen; omega
      have htake : required - a = (required - (a + 1)) + 1 := by omega
      simp only [barrierProcess, barrierStep, if_neg hnotdone, if_neg hfire,
        List.nil_append]
      rw [ih (a + 1) (if fe = ErrorCode.success then ec else fe) hlt hlen2,
        htake, List.take_succ_cons]
      by_cases hfe : fe = ErrorCode.success
      · by_cases hec : ec = ErrorCode.success
        · simp [hfe, hec, firstFailure]
        · simp [hfe, hec, firstFailure]
      · simp [hfe]

/-- C8: the barrier constructed with a required count, receiving at least
that many signals, invokes its final callback exactly once — on the signal
that brings the arrival count to the required count — passing the first
nonzero error among the counted signals (success if none); all later
signals are no-ops and never re-invoke the callback.  A barrier with
required = 0 fires immediately with success. -/
theorem C8_async_parallel (required : Nat) (signals : List ErrorCode)
    (h : required ≤ signals.length) :
    barrierRun required signals = [firstFailure (signals.take required)] := by
  rcases Nat.eq_zero_or_pos required with h0 | hpos
  · subst h0
    simp [barrierRun, firstFailure,
      barrierProcess_done 0 ⟨0, ErrorCode.success⟩ signals (Nat.le_refl 0)]
  · have := barrierProcess_fires required signals 0 ErrorCode.success hpos
      (by simpa using h)
    have hne : required ≠ 0 := Nat.pos_iff_ne_zero.mp hpos
    simp [barrierRun, hne, this]

/-- C8 witness: a barrier of required 2 over three signals fires once with
the first nonzero error among the first two signals. -/
theorem C8_async_parallel_witness :
    2 ≤ ([ErrorCode.success, ErrorCode.other 3, ErrorCode.other 4] :
        List ErrorCode).length ∧
    barrierRun 2 [ErrorCode.success, ErrorCode.other 3, ErrorCode.other 4] =
      [firstFailure
        ([ErrorCode.success, ErrorCode.other 3, ErrorCode.other 4].take 2)] :=
  ⟨by decide,
    C8_async_parallel 2 [ErrorCode.success, ErrorCode.other 3, ErrorCode.other 4]
      (by decide)⟩
